import Mathlib

/-!
Verification of the scoring-to-decision pipeline of the TeleLink customer
analytics service (`src/back_end.py`).

Churn probabilities and customer-lifetime values are modelled as rationals
(`ℚ`): the decision logic only compares them against exact decimal
constants, so the ordering structure of the Python floats is preserved.
Opaque scoring models are modelled as functions from the prepared feature
frame to `Except String ℚ` (an exception carries its message as a string).
Request handlers return `Except HTTPError _`, mirroring FastAPI's
`HTTPException(status_code, detail)`.
-/

/-- Input customer record, mirroring the pydantic `CustomerData` model
(`src/back_end.py` lines 52–63).  The `ge=0` integer fields become `Nat`. -/
structure CustomerData where
  accountLength : Nat
  state : String
  areaCode : String
  internationalPlan : String
  voiceMailPlan : String
  numberOfVmailMessages : Nat
  totalDayCalls : Nat
  totalEveCalls : Nat
  totalNightCalls : Nat
  totalIntlCalls : Nat
  customerServiceCalls : Nat
deriving Repr, DecidableEq

/-- The single-row DataFrame assembled by `prepare_input_data`
(`src/back_end.py` lines 92–112): one field per training column. -/
structure DataFrame where
  account_length : Nat
  international_plan : String
  voice_mail_plan : String
  number_vmail_messages : Nat
  total_day_calls : Nat
  total_eve_calls : Nat
  total_night_calls : Nat
  total_intl_calls : Nat
  customer_service_calls : Nat
  state : String
  area_code : String
deriving Repr, DecidableEq

/-- `prepare_input_data` (`src/back_end.py` lines 92–112): pure reshaping of a
`CustomerData` into the feature frame, no value transformation. -/
def prepare_input_data (customer : CustomerData) : DataFrame :=
  { account_length := customer.accountLength
    international_plan := customer.internationalPlan
    voice_mail_plan := customer.voiceMailPlan
    number_vmail_messages := customer.numberOfVmailMessages
    total_day_calls := customer.totalDayCalls
    total_eve_calls := customer.totalEveCalls
    total_night_calls := customer.totalNightCalls
    total_intl_calls := customer.totalIntlCalls
    customer_service_calls := customer.customerServiceCalls
    state := customer.state
    area_code := customer.areaCode }

/-- An opaque scoring model: scores a feature frame to a number, or raises an
exception carrying a message (the `str(e)` the handlers interpolate). -/
def Model : Type := DataFrame → Except String ℚ

/-- `get_recommendation` (`src/back_end.py` lines 115–131): nested ordered
checks on churn probability and CLV, first match wins. -/
def get_recommendation (churn_prob clv : ℚ) : String :=
  if churn_prob > 0.4 then
    if clv > 30000 then
      "🚨 CRITICAL: High-value customer at severe risk. Immediate executive intervention required. Offer premium retention package."
    else
      "⚠️ HIGH PRIORITY: Customer likely to churn. Assign dedicated account manager and offer targeted incentives within 24 hours."
  else if churn_prob > 0.2 then
    if clv > 30000 then
      "📞 PROACTIVE: Valuable customer showing warning signs. Schedule personal check-in call and present loyalty rewards."
    else
      "👀 MONITOR: Elevated churn risk detected. Increase engagement through personalized offers and service improvements."
  else
    if clv > 40000 then
      "⭐ NURTURE: High-value loyal customer. Continue VIP treatment and explore upsell opportunities."
    else
      "✅ MAINTAIN: Healthy customer relationship. Continue standard engagement and periodic satisfaction surveys."

/-- `get_confidence_level` (`src/back_end.py` lines 134–143): ordered checks
on distance from the 0.5 decision boundary, first match wins. -/
def get_confidence_level (churn_prob : ℚ) : String :=
  if churn_prob < 0.1 ∨ churn_prob > 0.9 then "Very High"
  else if churn_prob < 0.2 ∨ churn_prob > 0.8 then "High"
  else if churn_prob < 0.3 ∨ churn_prob > 0.7 then "Moderate"
  else "Low"

/-- The risk-tier ladder inside `predict_customer`
(`src/back_end.py` lines 197–202). -/
def risk_level (churn_prob : ℚ) : String :=
  if churn_prob > 0.4 then "High"
  else if churn_prob > 0.2 then "Medium"
  else "Low"

/-- The one-line risk-tier conditional inside `batch_predict`
(`src/back_end.py` line 244). -/
def batch_risk_level (churn_prob : ℚ) : String :=
  if churn_prob > 0.4 then "High" else if churn_prob > 0.2 then "Medium" else "Low"

/-- Response body of `/predict`, mirroring `PredictionResponse`
(`src/back_end.py` lines 84–89); batch items carry the same five fields. -/
structure PredictionResponse where
  churn_probability : ℚ
  churn_risk : String
  estimated_clv : ℚ
  recommendation : String
  confidence : String
deriving Repr, DecidableEq

/-- A FastAPI `HTTPException`: transport status code plus detail message. -/
structure HTTPError where
  status_code : Nat
  detail : String
deriving Repr, DecidableEq

/-- Body of the `try:` block of `predict_customer`
(`src/back_end.py` lines 186–216): normalizer, the two model invocations,
then the Decision Engine; a model exception aborts with its message. -/
def score_request (cm clvm : Model) (customer : CustomerData) :
    Except String PredictionResponse := do
  let input_data := prepare_input_data customer
  let churn_prob ← cm input_data
  let estimated_clv ← clvm input_data
  pure { churn_probability := churn_prob
         churn_risk := risk_level churn_prob
         estimated_clv := estimated_clv
         recommendation := get_recommendation churn_prob estimated_clv
         confidence := get_confidence_level churn_prob }

/-- `POST /predict` handler `predict_customer` (`src/back_end.py`
lines 168–222): 503 when either model handle is `None`, otherwise the scoring
pipeline with any exception surfaced as a 500. -/
def predict_customer :
    Option Model → Option Model → CustomerData →
    Except HTTPError PredictionResponse
  | some cm, some clvm, customer =>
    match score_request cm clvm customer with
    | .ok r => .ok r
    | .error e => .error ⟨500, "Prediction error: " ++ e⟩
  | _, _, _ =>
    .error ⟨503, "ML models not loaded. Please ensure model files are available."⟩

/-- One iteration of the `for customer in customers` loop body of
`batch_predict` (`src/back_end.py` lines 239–252): the dict appended to
`results`, with the inline risk ladder of line 244. -/
def score_batch_item (cm clvm : Model) (customer : CustomerData) :
    Except String PredictionResponse := do
  let input_data := prepare_input_data customer
  let churn_prob ← cm input_data
  let estimated_clv ← clvm input_data
  pure { churn_probability := churn_prob
         churn_risk := batch_risk_level churn_prob
         estimated_clv := estimated_clv
         recommendation := get_recommendation churn_prob estimated_clv
         confidence := get_confidence_level churn_prob }

/-- The `for` loop of `batch_predict` (`src/back_end.py` lines 238–252):
items are scored in input order and an exception at any item propagates,
discarding the partially built `results` list. -/
def batch_loop (cm clvm : Model) : List CustomerData →
    Except String (List PredictionResponse)
  | [] => pure []
  | customer :: rest => do
    let r ← score_batch_item cm clvm customer
    let rs ← batch_loop cm clvm rest
    pure (r :: rs)

/-- Response body of `/batch-predict` (`src/back_end.py` line 254). -/
structure BatchResponse where
  predictions : List PredictionResponse
  count : Nat
deriving Repr, DecidableEq

/-- `POST /batch-predict` handler `batch_predict` (`src/back_end.py`
lines 225–260): 503 when either model handle is `None`, otherwise the loop
with any exception surfaced as a 500 for the whole batch. -/
def batch_predict :
    Option Model → Option Model → List CustomerData →
    Except HTTPError BatchResponse
  | some cm, some clvm, customers =>
    match batch_loop cm clvm customers with
    | .ok results => .ok ⟨results, results.length⟩
    | .error e => .error ⟨500, "Batch prediction error: " ++ e⟩
  | _, _, _ => .error ⟨503, "ML models not loaded."⟩

/-- A model that always returns the same score, for concrete runs. -/
def const_model (v : ℚ) : Model := fun _ => .ok v

/-- A model that always raises, for concrete runs of the failure paths. -/
def failing_model (msg : String) : Model := fun _ => .error msg

/-- The example customer from the `CustomerData` schema
(`src/back_end.py` lines 66–80). -/
def sampleCustomer : CustomerData :=
  { accountLength := 128
    state := "CA"
    areaCode := "415"
    internationalPlan := "no"
    voiceMailPlan := "yes"
    numberOfVmailMessages := 25
    totalDayCalls := 110
    totalEveCalls := 85
    totalNightCalls := 95
    totalIntlCalls := 3
    customerServiceCalls := 1 }

/-- C1: the risk tier is total over {Low, Medium, High} with the strict
boundaries of the ladder at `src/back_end.py` lines 197–202: `p > 0.4` is
High, `0.2 < p ≤ 0.4` is Medium, `p ≤ 0.2` is Low — so `p = 0.4` is Medium
and `p = 0.2` is Low — and the inline ladder of `batch_predict` (line 244)
agrees everywhere. -/
theorem risk_tier_boundaries (p : ℚ) :
    (risk_level p = "Low" ∨ risk_level p = "Medium" ∨ risk_level p = "High") ∧
    (risk_level p = "High" ↔ p > 0.4) ∧
    (risk_level p = "Medium" ↔ 0.2 < p ∧ p ≤ 0.4) ∧
    (risk_level p = "Low" ↔ p ≤ 0.2) ∧
    batch_risk_level p = risk_level p ∧
    risk_level (0.4 : ℚ) = "Medium" ∧ risk_level (0.2 : ℚ) = "Low" := by
  refine ⟨?_, ?_, ?_, ?_, rfl, by norm_num [risk_level], by norm_num [risk_level]⟩ <;>
    unfold risk_level <;> split_ifs <;> push_neg at * <;> simp_all <;> linarith

/-- C2: the confidence tier follows the ordered checks of
`get_confidence_level` (`src/back_end.py` lines 134–143), first match wins:
Very High iff `p < 0.1 ∨ p > 0.9`; High iff that fails and
`p < 0.2 ∨ p > 0.8`; Moderate iff both fail and `p < 0.3 ∨ p > 0.7`; Low
otherwise.  In particular `p = 0.2` yields Moderate. -/
theorem confidence_ordered_checks (p : ℚ) :
    (get_confidence_level p = "Very High" ↔ (p < 0.1 ∨ p > 0.9)) ∧
    (get_confidence_level p = "High" ↔
      (¬(p < 0.1 ∨ p > 0.9) ∧ (p < 0.2 ∨ p > 0.8))) ∧
    (get_confidence_level p = "Moderate" ↔
      (¬(p < 0.1 ∨ p > 0.9) ∧ ¬(p < 0.2 ∨ p > 0.8) ∧ (p < 0.3 ∨ p > 0.7))) ∧
    (get_confidence_level p = "Low" ↔
      (¬(p < 0.1 ∨ p > 0.9) ∧ ¬(p < 0.2 ∨ p > 0.8) ∧ ¬(p < 0.3 ∨ p > 0.7))) ∧
    get_confidence_level (0.2 : ℚ) = "Moderate" := by
  refine ⟨?_, ?_, ?_, ?_, by norm_num [get_confidence_level]⟩ <;>
    unfold get_confidence_level <;> split_ifs <;> simp_all

/-- C4: the confidence tier is symmetric around 0.5:
`get_confidence_level p = get_confidence_level (1 - p)` — proved for every
rational `p`, so in particular for every `p ∈ [0,1]`. -/
theorem confidence_symmetric (p : ℚ) :
    get_confidence_level p = get_confidence_level (1 - p) := by
  unfold get_confidence_level
  split_ifs <;> first
  | rfl
  | (exfalso; push_neg at *; casesm* _ ∨ _ <;> linarith)

/-- C3, counterexample: at `p = 0.3`, `clv = 35000` the claimed triple
(Medium, Moderate, PROACTIVE) does not hold, because
`get_confidence_level 0.3` is `"Low"`: the check `0.3 < 0.3` on line 140 of
`src/back_end.py` is false, so the Moderate branch is not taken. -/
theorem scenario3_counterexample :
    ¬ (risk_level (0.3 : ℚ) = "Medium" ∧
       get_confidence_level (0.3 : ℚ) = "Moderate" ∧
       get_recommendation (0.3 : ℚ) 35000 =
         "📞 PROACTIVE: Valuable customer showing warning signs. Schedule personal check-in call and present loyalty rewards.") := by
  intro h
  have hm := h.2.1
  norm_num [get_confidence_level] at hm
  exact absurd hm (by decide)

/-- C3, amended: for `p = 0.3` and `clv = 35000` the pipeline yields risk
tier Medium, the PROACTIVE recommendation, and confidence tier Low (not
Moderate): run end-to-end through `predict_customer` with models returning
exactly these scores. -/
theorem scenario3_amended :
    predict_customer (some (const_model 0.3)) (some (const_model 35000))
      sampleCustomer =
    .ok { churn_probability := 0.3
          churn_risk := "Medium"
          estimated_clv := 35000
          recommendation := "📞 PROACTIVE: Valuable customer showing warning signs. Schedule personal check-in call and present loyalty rewards."
          confidence := "Low" } := by
  norm_num [predict_customer, score_request, const_model, risk_level,
    get_recommendation, get_confidence_level, Bind.bind, Except.bind,
    Pure.pure, Except.pure]

/-- C5: for every probability and CLV the recommendation is one of exactly
six fixed strings, never empty, and each of the six is reachable. -/
theorem recommendation_catalog :
    (∀ p clv : ℚ,
      (get_recommendation p clv =
        "🚨 CRITICAL: High-value customer at severe risk. Immediate executive intervention required. Offer premium retention package." ∨
       get_recommendation p clv =
        "⚠️ HIGH PRIORITY: Customer likely to churn. Assign dedicated account manager and offer targeted incentives within 24 hours." ∨
       get_recommendation p clv =
        "📞 PROACTIVE: Valuable customer showing warning signs. Schedule personal check-in call and present loyalty rewards." ∨
       get_recommendation p clv =
        "👀 MONITOR: Elevated churn risk detected. Increase engagement through personalized offers and service improvements." ∨
       get_recommendation p clv =
        "⭐ NURTURE: High-value loyal customer. Continue VIP treatment and explore upsell opportunities." ∨
       get_recommendation p clv =
        "✅ MAINTAIN: Healthy customer relationship. Continue standard engagement and periodic satisfaction surveys.") ∧
      get_recommendation p clv ≠ "") ∧
    (∃ p clv : ℚ, get_recommendation p clv =
      "🚨 CRITICAL: High-value customer at severe risk. Immediate executive intervention required. Offer premium retention package.") ∧
    (∃ p clv : ℚ, get_recommendation p clv =
      "⚠️ HIGH PRIORITY: Customer likely to churn. Assign dedicated account manager and offer targeted incentives within 24 hours.") ∧
    (∃ p clv : ℚ, get_recommendation p clv =
      "📞 PROACTIVE: Valuable customer showing warning signs. Schedule personal check-in call and present loyalty rewards.") ∧
    (∃ p clv : ℚ, get_recommendation p clv =
      "👀 MONITOR: Elevated churn risk detected. Increase engagement through personalized offers and service improvements.") ∧
    (∃ p clv : ℚ, get_recommendation p clv =
      "⭐ NURTURE: High-value loyal customer. Continue VIP treatment and explore upsell opportunities.") ∧
    (∃ p clv : ℚ, get_recommendation p clv =
      "✅ MAINTAIN: Healthy customer relationship. Continue standard engagement and periodic satisfaction surveys.") := by
  refine ⟨fun p clv => ?_,
    ⟨0.5, 40000, by norm_num [get_recommendation]⟩,
    ⟨0.5, 0, by norm_num [get_recommendation]⟩,
    ⟨0.3, 40000, by norm_num [get_recommendation]⟩,
    ⟨0.3, 0, by norm_num [get_recommendation]⟩,
    ⟨0, 50000, by norm_num [get_recommendation]⟩,
    ⟨0, 0, by norm_num [get_recommendation]⟩⟩
  unfold get_recommendation
  split_ifs <;> simp

/-- C6: for every `p` and `clv`, the probability band chosen inside
`get_recommendation` coincides with the risk tier of the handlers: the
recommendation is CRITICAL or HIGH PRIORITY exactly when the risk tier is
High, PROACTIVE or MONITOR exactly when Medium, and NURTURE or MAINTAIN
exactly when Low. -/
theorem risk_recommendation_consistency (p clv : ℚ) :
    (risk_level p = "High" ↔
      (get_recommendation p clv =
        "🚨 CRITICAL: High-value customer at severe risk. Immediate executive intervention required. Offer premium retention package." ∨
       get_recommendation p clv =
        "⚠️ HIGH PRIORITY: Customer likely to churn. Assign dedicated account manager and offer targeted incentives within 24 hours.")) ∧
    (risk_level p = "Medium" ↔
      (get_recommendation p clv =
        "📞 PROACTIVE: Valuable customer showing warning signs. Schedule personal check-in call and present loyalty rewards." ∨
       get_recommendation p clv =
        "👀 MONITOR: Elevated churn risk detected. Increase engagement through personalized offers and service improvements.")) ∧
    (risk_level p = "Low" ↔
      (get_recommendation p clv =
        "⭐ NURTURE: High-value loyal customer. Continue VIP treatment and explore upsell opportunities." ∨
       get_recommendation p clv =
        "✅ MAINTAIN: Healthy customer relationship. Continue standard engagement and periodic satisfaction surveys.")) := by
  unfold risk_level get_recommendation
  split_ifs <;> simp_all

/-- C10: `get_confidence_level` and `get_recommendation` are total over all
rational inputs, not only `p ∈ [0,1]`: the confidence is always one of its
four catalog strings and the recommendation one of its six; moreover any
`p < 0` yields confidence Very High and falls into the `p ≤ 0.2`
recommendation band (NURTURE or MAINTAIN). -/
theorem decision_total_all_inputs (p clv : ℚ) :
    (get_confidence_level p = "Very High" ∨ get_confidence_level p = "High" ∨
     get_confidence_level p = "Moderate" ∨ get_confidence_level p = "Low") ∧
    (get_recommendation p clv =
      "🚨 CRITICAL: High-value customer at severe risk. Immediate executive intervention required. Offer premium retention package." ∨
     get_recommendation p clv =
      "⚠️ HIGH PRIORITY: Customer likely to churn. Assign dedicated account manager and offer targeted incentives within 24 hours." ∨
     get_recommendation p clv =
      "📞 PROACTIVE: Valuable customer showing warning signs. Schedule personal check-in call and present loyalty rewards." ∨
     get_recommendation p clv =
      "👀 MONITOR: Elevated churn risk detected. Increase engagement through personalized offers and service improvements." ∨
     get_recommendation p clv =
      "⭐ NURTURE: High-value loyal customer. Continue VIP treatment and explore upsell opportunities." ∨
     get_recommendation p clv =
      "✅ MAINTAIN: Healthy customer relationship. Continue standard engagement and periodic satisfaction surveys.") ∧
    (p < 0 →
      get_confidence_level p = "Very High" ∧
      (get_recommendation p clv =
        "⭐ NURTURE: High-value loyal customer. Continue VIP treatment and explore upsell opportunities." ∨
       get_recommendation p clv =
        "✅ MAINTAIN: Healthy customer relationship. Continue standard engagement and periodic satisfaction surveys.")) := by
  refine ⟨?_, ?_, fun hneg => ⟨?_, ?_⟩⟩
  · unfold get_confidence_level; split_ifs <;> simp
  · unfold get_recommendation; split_ifs <;> simp
  · unfold get_confidence_level
    rw [if_pos (Or.inl (by norm_num; linarith))]
  · unfold get_recommendation
    rw [if_neg (by norm_num; linarith), if_neg (by norm_num; linarith)]
    split_ifs <;> simp

/-- C7: if either model handle is `None`, both scoring endpoints fail with
the 503 ModelsUnavailable condition, for every request body and independently
of the other handle — the check precedes the normalizer, the model calls and
the decision engine (`src/back_end.py` lines 180–184 and 231–235). -/
theorem models_unavailable_short_circuit
    (churn_model clv_model : Option Model) (customer : CustomerData)
    (customers : List CustomerData)
    (h : churn_model = none ∨ clv_model = none) :
    predict_customer churn_model clv_model customer =
      .error ⟨503, "ML models not loaded. Please ensure model files are available."⟩ ∧
    batch_predict churn_model clv_model customers =
      .error ⟨503, "ML models not loaded."⟩ := by
  rcases h with h | h
  · subst h; exact ⟨rfl, rfl⟩
  · subst h
    cases churn_model with
    | none => exact ⟨rfl, rfl⟩
    | some cm => exact ⟨rfl, rfl⟩

/-- Witness for C7: both model handles absent, the schema example customer. -/
theorem models_unavailable_short_circuit_witness :
    predict_customer none none sampleCustomer =
      .error ⟨503, "ML models not loaded. Please ensure model files are available."⟩ ∧
    batch_predict none none [sampleCustomer] =
      .error ⟨503, "ML models not loaded."⟩ :=
  models_unavailable_short_circuit none none sampleCustomer [sampleCustomer]
    (Or.inl rfl)

/-- C9: once the models-loaded check passes, a scoring exception with message
`e` surfaces as a 500 whose detail wraps `e` — per request on `/predict`, per
batch on `/batch-predict` (`src/back_end.py` lines 218–222 and 256–260). -/
theorem scoring_failure_surfaced (cm clvm : Model) :
    (∀ (customer : CustomerData) (e : String),
      score_request cm clvm customer = .error e →
      predict_customer (some cm) (some clvm) customer =
        .error ⟨500, "Prediction error: " ++ e⟩) ∧
    (∀ (customers : List CustomerData) (e : String),
      batch_loop cm clvm customers = .error e →
      batch_predict (some cm) (some clvm) customers =
        .error ⟨500, "Batch prediction error: " ++ e⟩) := by
  constructor
  · intro customer e h
    simp only [predict_customer]
    rw [h]
  · intro customers e h
    simp only [batch_predict]
    rw [h]

/-- Witness for C9: a churn model that raises with message `boom`. -/
theorem scoring_failure_surfaced_witness :
    predict_customer (some (failing_model "boom")) (some (const_model 100))
      sampleCustomer = .error ⟨500, "Prediction error: boom"⟩ :=
  (scoring_failure_surfaced (failing_model "boom") (const_model 100)).1
    sampleCustomer "boom" rfl

/-- The batch loop body and the single-record pipeline body agree: the inline
risk ladder of line 244 equals the ladder of lines 197–202 definitionally. -/
theorem score_batch_item_eq_score_request (cm clvm : Model) (c : CustomerData) :
    score_batch_item cm clvm c = score_request cm clvm c := rfl

/-- Structure of a successful batch loop: as many results as customers, in
input order, each one the output of the single-record pipeline on the
corresponding customer. -/
theorem batch_loop_ok (cm clvm : Model) :
    ∀ (customers : List CustomerData) (results : List PredictionResponse),
      batch_loop cm clvm customers = .ok results →
      results.length = customers.length ∧
      ∀ (i : Nat) (hi : i < customers.length) (hj : i < results.length),
        score_request cm clvm (customers.get ⟨i, hi⟩) = .ok (results.get ⟨i, hj⟩) := by
  intro customers
  induction customers with
  | nil =>
    intro results h
    have h' : Except.ok ([] : List PredictionResponse) = Except.ok results := h
    injection h' with h''
    subst h''
    exact ⟨rfl, fun i hi _ => absurd hi (Nat.not_lt_zero i)⟩
  | cons c rest ih =>
    intro results h
    cases hr : score_batch_item cm clvm c with
    | error e =>
      simp [batch_loop, hr, Bind.bind, Except.bind] at h
    | ok r =>
      cases hrest : batch_loop cm clvm rest with
      | error e =>
        simp [batch_loop, hr, hrest, Bind.bind, Except.bind] at h
      | ok rs =>
        have h' : results = r :: rs := by
          simp [batch_loop, hr, hrest, Bind.bind, Except.bind, Pure.pure,
            Except.pure] at h
          exact h.symm
        subst h'
        obtain ⟨hlen, hpt⟩ := ih rs hrest
        refine ⟨by simp [hlen], ?_⟩
        intro i hi hj
        cases i with
        | zero =>
          simpa [← score_batch_item_eq_score_request] using hr
        | succ n =>
          exact hpt n (Nat.lt_of_succ_lt_succ hi) (Nat.lt_of_succ_lt_succ hj)

/-- C8: with both models loaded, a batch whose every item scores successfully
returns the per-item results of the single-record pipeline, in input order,
with `count` equal to their number; an exception at any item fails the whole
batch with a single 500 and no partial results (`src/back_end.py`
lines 237–260).  The first conjunct records that the batch loop body is the
single-record pipeline body. -/
theorem batch_pipeline_spec (cm clvm : Model) (customers : List CustomerData) :
    (∀ c : CustomerData, score_batch_item cm clvm c = score_request cm clvm c) ∧
    (∀ results : List PredictionResponse,
      batch_loop cm clvm customers = .ok results →
      batch_predict (some cm) (some clvm) customers =
        .ok { predictions := results, count := results.length } ∧
      results.length = customers.length ∧
      ∀ (i : Nat) (hi : i < customers.length) (hj : i < results.length),
        score_request cm clvm (customers.get ⟨i, hi⟩) = .ok (results.get ⟨i, hj⟩)) ∧
    (∀ e : String, batch_loop cm clvm customers = .error e →
      batch_predict (some cm) (some clvm) customers =
        .error ⟨500, "Batch prediction error: " ++ e⟩) := by
  refine ⟨fun c => rfl, fun results h => ?_, fun e h => ?_⟩
  · obtain ⟨hlen, hpt⟩ := batch_loop_ok cm clvm customers results h
    refine ⟨?_, hlen, hpt⟩
    simp only [batch_predict]
    rw [h]
  · simp only [batch_predict]
    rw [h]

/-- Witness for C8: a singleton batch scored by constant models, yielding the
single-record pipeline's result with `count = 1`. -/
theorem batch_pipeline_spec_witness :
    batch_predict (some (const_model 0.5)) (some (const_model 50000))
      [sampleCustomer] =
    .ok { predictions :=
            [{ churn_probability := 0.5
               churn_risk := "High"
               estimated_clv := 50000
               recommendation := "🚨 CRITICAL: High-value customer at severe risk. Immediate executive intervention required. Offer premium retention package."
               confidence := "Low" }]
          count := 1 } := by
  have h : batch_loop (const_model 0.5) (const_model 50000) [sampleCustomer] =
      .ok [{ churn_probability := 0.5
             churn_risk := "High"
             estimated_clv := 50000
             recommendation := "🚨 CRITICAL: High-value customer at severe risk. Immediate executive intervention required. Offer premium retention package."
             confidence := "Low" }] := by
    norm_num [batch_loop, score_batch_item, const_model, batch_risk_level,
      get_recommendation, get_confidence_level, Bind.bind, Except.bind,
      Pure.pure, Except.pure]
  exact ((batch_pipeline_spec (const_model 0.5) (const_model 50000)
    [sampleCustomer]).2.1 _ h).1

/-- Witness for C10 at `p = -1`, `clv = -5`. -/
theorem decision_total_all_inputs_witness :
    get_confidence_level (-1 : ℚ) = "Very High" ∧
    (get_recommendation (-1 : ℚ) (-5) =
      "⭐ NURTURE: High-value loyal customer. Continue VIP treatment and explore upsell opportunities." ∨
     get_recommendation (-1 : ℚ) (-5) =
      "✅ MAINTAIN: Healthy customer relationship. Continue standard engagement and periodic satisfaction surveys.") :=
  (decision_total_all_inputs (-1) (-5)).2.2 (by norm_num)
